import Mathlib

/-!
# Formal model of `gymnarium_visualisers_piston` (src/lib.rs)

A shallow embedding of the library's data model and operations:

* the usage-counted texture cache `TextureBuffer` with its operations
  `new`, `load_or_mark_use`, `decrease_and_drop` and `get`;
* the single-slot scene mailbox (a locked `Option` written by assignment and
  read by `take`);
* the viewport-fitting computation performed at the top of
  `PistonVisualiser::render`;
* the recursive scene-graph renderer `render_geometry_2d`, modelled as a
  function producing the list of drawing commands issued to the backend
  (`Option` models panics: a `none` result means the Rust code panics);
* the producer-side handle state (`PistonVisualiser`) with `close` and
  `render_two_dimensional`.

Machine floats (`f64`) are modelled as rationals; the `as u32` casts that the
code performs on scissor coordinates are modelled exactly (saturating
truncation).  Types that live in the external collaborator crates
(`gymnarium_base`, `gymnarium_visualisers_base`) are reconstructed from their
use sites in `src/lib.rs` and from the specification's data-model section;
each such definition carries a note.
-/

set_option autoImplicit false

namespace Gymnarium

/-- From the external `gymnarium_base::math` crate: a 2D vector with `f64`
components, modelled over `ℚ`. -/
structure Vector2D where
  x : ℚ
  y : ℚ
deriving DecidableEq

/-- From the external `gymnarium_base::math` crate: a 2D position with `f64`
components, modelled over `ℚ`. -/
structure Position2D where
  x : ℚ
  y : ℚ
deriving DecidableEq

/-- `Position2D::zero()`. -/
def Position2D.zero : Position2D := ⟨0, 0⟩

/-- `a.vector_to(&b)`: the vector leading from `a` to `b`. -/
def Position2D.vector_to (a b : Position2D) : Vector2D :=
  ⟨b.x - a.x, b.y - a.y⟩

/-- From the external base crate: a width/height pair (`Size2D::with`). -/
structure Size2D where
  width : ℚ
  height : ℚ
deriving DecidableEq

/-- From the external base crate: a logical viewport, a center plus a size
(`Viewport2D::with`). -/
structure Viewport2D where
  center : Position2D
  size : Size2D
deriving DecidableEq

/-- The fit policy `Viewport2DModification` of the external base crate.  The
constructors model `LooseAspectRatio`, `KeepAspectRatio` and
`KeepAspectRatioAndScissorRemains` in this order. -/
inductive Viewport2DModification where
  | looseAspect
  | keepAspect
  | keepAspectAndScissorRemains
deriving DecidableEq

/-- From the external base crate: an RGBA color.  Only its identity matters to
the embedded code, which forwards it to the backend via `float_array`. -/
structure Color where
  r : ℚ
  g : ℚ
  b : ℚ
  a : ℚ
deriving DecidableEq

/-- `Color::float_array`: the four channels as handed to the piston drawing
primitives. -/
def Color.float_array (c : Color) : ℚ × ℚ × ℚ × ℚ :=
  (c.r, c.g, c.b, c.a)

/-- The affine-transformation values of the external `gymnarium_base` crate,
restricted to the constructors `src/lib.rs` builds: `identity()`,
`translation(v)`, `scale(sx, sy)` and `composition(name, parts)`. -/
inductive Transformation2D where
  | identity
  | translation (v : Vector2D)
  | scale (sx sy : ℚ)
  | composition (name : String) (parts : List Transformation2D)

mutual

/-- Semantics of a single affine transformation applied to a position.
Modelled from the spec: transformations of a chain are applied cumulatively,
first element first. -/
def Transformation2D.applyT : Transformation2D → Position2D → Position2D
  | .identity, p => p
  | .translation v, p => ⟨p.x + v.x, p.y + v.y⟩
  | .scale sx sy, p => ⟨sx * p.x, sy * p.y⟩
  | .composition _ parts, p => Transformation2D.applyChain parts p

/-- Applying a chain of transformations, first element first. -/
def Transformation2D.applyChain : List Transformation2D → Position2D → Position2D
  | [], p => p
  | t :: ts, p => Transformation2D.applyChain ts (t.applyT p)

end

mutual

/-- Structural equality on `Transformation2D`, mirroring the derived
`PartialEq` of the external crate. -/
def Transformation2D.beqT : Transformation2D → Transformation2D → Bool
  | .identity, .identity => true
  | .translation v, .translation w => v == w
  | .scale a b, .scale c d => a == c && b == d
  | .composition n l, .composition m k => n == m && Transformation2D.beqChain l k
  | _, _ => false

/-- Structural equality on transformation chains. -/
def Transformation2D.beqChain : List Transformation2D → List Transformation2D → Bool
  | [], [] => true
  | x :: xs, y :: ys => Transformation2D.beqT x y && Transformation2D.beqChain xs ys
  | _, _ => false

end

mutual

def Transformation2D.beqT_iff : ∀ a b : Transformation2D, Transformation2D.beqT a b = true ↔ a = b
  | .identity, .identity => by simp [Transformation2D.beqT]
  | .identity, .translation _ => by simp [Transformation2D.beqT]
  | .identity, .scale _ _ => by simp [Transformation2D.beqT]
  | .identity, .composition _ _ => by simp [Transformation2D.beqT]
  | .translation _, .identity => by simp [Transformation2D.beqT]
  | .translation _, .translation _ => by simp [Transformation2D.beqT]
  | .translation _, .scale _ _ => by simp [Transformation2D.beqT]
  | .translation _, .composition _ _ => by simp [Transformation2D.beqT]
  | .scale _ _, .identity => by simp [Transformation2D.beqT]
  | .scale _ _, .translation _ => by simp [Transformation2D.beqT]
  | .scale _ _, .scale _ _ => by simp [Transformation2D.beqT]
  | .scale _ _, .composition _ _ => by simp [Transformation2D.beqT]
  | .composition _ _, .identity => by simp [Transformation2D.beqT]
  | .composition _ _, .translation _ => by simp [Transformation2D.beqT]
  | .composition _ _, .scale _ _ => by simp [Transformation2D.beqT]
  | .composition _ l, .composition _ k => by
    simp [Transformation2D.beqT, Transformation2D.beqChain_iff l k]

def Transformation2D.beqChain_iff :
    ∀ a b : List Transformation2D, Transformation2D.beqChain a b = true ↔ a = b
  | [], [] => by simp [Transformation2D.beqChain]
  | [], _ :: _ => by simp [Transformation2D.beqChain]
  | _ :: _, [] => by simp [Transformation2D.beqChain]
  | x :: xs, y :: ys => by
    simp [Transformation2D.beqChain, Transformation2D.beqT_iff x y,
      Transformation2D.beqChain_iff xs ys]

end

instance : DecidableEq Transformation2D := fun a b =>
  decidable_of_iff (Transformation2D.beqT a b = true) (Transformation2D.beqT_iff a b)

/-- A 3×3 matrix over the scalar field, row-major. -/
abbrev M3 := (ℚ × ℚ × ℚ) × (ℚ × ℚ × ℚ) × (ℚ × ℚ × ℚ)

/-- A 2×3 matrix (the `[[f64; 3]; 2]` transform format of piston), row-major. -/
abbrev M32 := (ℚ × ℚ × ℚ) × (ℚ × ℚ × ℚ)

/-- The 3×3 identity matrix. -/
def m3id : M3 := ((1, 0, 0), (0, 1, 0), (0, 0, 1))

/-- 3×3 matrix product. -/
def m3mul (a b : M3) : M3 :=
  (((a.1.1 * b.1.1 + a.1.2.1 * b.2.1.1 + a.1.2.2 * b.2.2.1),
    (a.1.1 * b.1.2.1 + a.1.2.1 * b.2.1.2.1 + a.1.2.2 * b.2.2.2.1),
    (a.1.1 * b.1.2.2 + a.1.2.1 * b.2.1.2.2 + a.1.2.2 * b.2.2.2.2)),
   ((a.2.1.1 * b.1.1 + a.2.1.2.1 * b.2.1.1 + a.2.1.2.2 * b.2.2.1),
    (a.2.1.1 * b.1.2.1 + a.2.1.2.1 * b.2.1.2.1 + a.2.1.2.2 * b.2.2.2.1),
    (a.2.1.1 * b.1.2.2 + a.2.1.2.1 * b.2.1.2.2 + a.2.1.2.2 * b.2.2.2.2)),
   ((a.2.2.1 * b.1.1 + a.2.2.2.1 * b.2.1.1 + a.2.2.2.2 * b.2.2.1),
    (a.2.2.1 * b.1.2.1 + a.2.2.2.1 * b.2.1.2.1 + a.2.2.2.2 * b.2.2.2.1),
    (a.2.2.1 * b.1.2.2 + a.2.2.2.1 * b.2.1.2.2 + a.2.2.2.2 * b.2.2.2.2)))

mutual

/-- The homogeneous matrix of a single transformation (modelled from the
external base crate's standard affine semantics). -/
def Transformation2D.matrixT : Transformation2D → M3
  | .identity => m3id
  | .translation v => ((1, 0, v.x), (0, 1, v.y), (0, 0, 1))
  | .scale sx sy => ((sx, 0, 0), (0, sy, 0), (0, 0, 1))
  | .composition _ parts => Transformation2D.matrixChain parts

/-- `transformations.transformation_matrix()`: the matrix of a chain, with the
first element applied first (so its matrix stands rightmost in the product). -/
def Transformation2D.matrixChain : List Transformation2D → M3
  | [] => m3id
  | t :: ts => m3mul (Transformation2D.matrixChain ts) t.matrixT

end

/-- `gymnarium_base::math::matrix_3x3_as_matrix_3x2`: keeps the two upper rows
of the homogeneous matrix, which is the `[[f64; 3]; 2]` format piston draws
with. -/
def matrix_3x3_as_matrix_3x2 (m : M3) : M32 :=
  (m.1, m.2.1)

/-- `position.transform(transformations)`: a position pushed through a
transformation chain. -/
def Position2D.transformBy (p : Position2D) (ts : List Transformation2D) : Position2D :=
  Transformation2D.applyChain ts p

/-- `gymnarium_visualisers_base::LineShape` (`Square`, `Round`, `Bevel`);
`src/lib.rs` maps it one-to-one onto `piston_window::line::Shape`. -/
inductive LineShape where
  | square
  | round
  | bevel
deriving DecidableEq

/-- `gymnarium_visualisers_base::CornerShape` (`Square`, `Round(size,
resolution)`, `Bevel(size)`); mapped one-to-one onto
`piston_window::rectangle::Shape`. -/
inductive CornerShape where
  | square
  | round (size : ℚ) (resolution : ℕ)
  | bevel (size : ℚ)
deriving DecidableEq

/-- `gymnarium_visualisers_base::TextureSource`: either a filesystem path or a
raw pixel buffer with explicit width and height.  Hashable/equatable, so it
keys the texture cache. -/
inductive TextureSource where
  | path (p : String)
  | bytes (data : List ℕ) (width : ℕ) (height : ℕ)
deriving DecidableEq

/-- `gymnarium_visualisers_base::Geometry2D`: the scene-graph value type, with
exactly the variants and fields `src/lib.rs` pattern-matches on in
`render_geometry_2d`. -/
inductive Geometry2D where
  | point (position : Position2D) (color : Color)
      (transformations : List Transformation2D)
  | line (points : List Position2D) (line_color : Color) (line_width : ℚ)
      (line_shape : LineShape) (transformations : List Transformation2D)
  | polyline (points : List Position2D) (line_color : Color) (line_width : ℚ)
      (line_shape : LineShape) (transformations : List Transformation2D)
  | triangle (points : Position2D × Position2D × Position2D) (fill_color : Color)
      (border_color : Color) (border_width : ℚ)
      (transformations : List Transformation2D)
  | square (center_position : Position2D) (edge_length : ℚ) (fill_color : Color)
      (border_color : Color) (border_width : ℚ) (corner_shape : CornerShape)
      (transformations : List Transformation2D)
  | rectangle (center_position : Position2D) (size : Size2D) (fill_color : Color)
      (border_color : Color) (border_width : ℚ) (corner_shape : CornerShape)
      (transformations : List Transformation2D)
  | polygon (points : List Position2D) (fill_color : Color) (border_color : Color)
      (border_width : ℚ) (transformations : List Transformation2D)
  | circle (center_position : Position2D) (radius : ℚ) (fill_color : Color)
      (border_color : Color) (border_width : ℚ)
      (transformations : List Transformation2D)
  | ellipse (center_position : Position2D) (size : Size2D) (fill_color : Color)
      (border_color : Color) (border_width : ℚ)
      (transformations : List Transformation2D)
  | image (center_position : Position2D) (size : Size2D)
      (texture_source : TextureSource)
      (source_rectangle : Option (Position2D × Size2D)) (fill_color : Option Color)
      (transformations : List Transformation2D)
  | group (geometries : List Geometry2D)

mutual

/-- Structural equality on `Geometry2D`, mirroring the derived `PartialEq`
that the renderer's no-op-scene-update check relies on. -/
def Geometry2D.beqG : Geometry2D → Geometry2D → Bool
  | .point p1 c1 t1, .point p2 c2 t2 => p1 == p2 && c1 == c2 && t1 == t2
  | .line a1 b1 c1 d1 e1, .line a2 b2 c2 d2 e2 =>
      a1 == a2 && b1 == b2 && c1 == c2 && d1 == d2 && e1 == e2
  | .polyline a1 b1 c1 d1 e1, .polyline a2 b2 c2 d2 e2 =>
      a1 == a2 && b1 == b2 && c1 == c2 && d1 == d2 && e1 == e2
  | .triangle a1 b1 c1 d1 e1, .triangle a2 b2 c2 d2 e2 =>
      a1 == a2 && b1 == b2 && c1 == c2 && d1 == d2 && e1 == e2
  | .square a1 b1 c1 d1 e1 f1 g1, .square a2 b2 c2 d2 e2 f2 g2 =>
      a1 == a2 && b1 == b2 && c1 == c2 && d1 == d2 && e1 == e2 && f1 == f2 && g1 == g2
  | .rectangle a1 b1 c1 d1 e1 f1 g1, .rectangle a2 b2 c2 d2 e2 f2 g2 =>
      a1 == a2 && b1 == b2 && c1 == c2 && d1 == d2 && e1 == e2 && f1 == f2 && g1 == g2
  | .polygon a1 b1 c1 d1 e1, .polygon a2 b2 c2 d2 e2 =>
      a1 == a2 && b1 == b2 && c1 == c2 && d1 == d2 && e1 == e2
  | .circle a1 b1 c1 d1 e1 f1, .circle a2 b2 c2 d2 e2 f2 =>
      a1 == a2 && b1 == b2 && c1 == c2 && d1 == d2 && e1 == e2 && f1 == f2
  | .ellipse a1 b1 c1 d1 e1 f1, .ellipse a2 b2 c2 d2 e2 f2 =>
      a1 == a2 && b1 == b2 && c1 == c2 && d1 == d2 && e1 == e2 && f1 == f2
  | .image a1 b1 c1 d1 e1 f1, .image a2 b2 c2 d2 e2 f2 =>
      a1 == a2 && b1 == b2 && c1 == c2 && d1 == d2 && e1 == e2 && f1 == f2
  | .group l, .group k => Geometry2D.beqGroup l k
  | _, _ => false

/-- Structural equality on geometry lists. -/
def Geometry2D.beqGroup : List Geometry2D → List Geometry2D → Bool
  | [], [] => true
  | x :: xs, y :: ys => Geometry2D.beqG x y && Geometry2D.beqGroup xs ys
  | _, _ => false

end

mutual

def Geometry2D.beqG_iff : ∀ a b : Geometry2D, Geometry2D.beqG a b = true ↔ a = b
  | .point _ _ _, .point _ _ _ => by simp [Geometry2D.beqG, and_assoc]
  | .point _ _ _, .line _ _ _ _ _ => by simp [Geometry2D.beqG]
  | .point _ _ _, .polyline _ _ _ _ _ => by simp [Geometry2D.beqG]
  | .point _ _ _, .triangle _ _ _ _ _ => by simp [Geometry2D.beqG]
  | .point _ _ _, .square _ _ _ _ _ _ _ => by simp [Geometry2D.beqG]
  | .point _ _ _, .rectangle _ _ _ _ _ _ _ => by simp [Geometry2D.beqG]
  | .point _ _ _, .polygon _ _ _ _ _ => by simp [Geometry2D.beqG]
  | .point _ _ _, .circle _ _ _ _ _ _ => by simp [Geometry2D.beqG]
  | .point _ _ _, .ellipse _ _ _ _ _ _ => by simp [Geometry2D.beqG]
  | .point _ _ _, .image _ _ _ _ _ _ => by simp [Geometry2D.beqG]
  | .point _ _ _, .group _ => by simp [Geometry2D.beqG]
  | .line _ _ _ _ _, .point _ _ _ => by simp [Geometry2D.beqG]
  | .line _ _ _ _ _, .line _ _ _ _ _ => by simp [Geometry2D.beqG, and_assoc]
  | .line _ _ _ _ _, .polyline _ _ _ _ _ => by simp [Geometry2D.beqG]
  | .line _ _ _ _ _, .triangle _ _ _ _ _ => by simp [Geometry2D.beqG]
  | .line _ _ _ _ _, .square _ _ _ _ _ _ _ => by simp [Geometry2D.beqG]
  | .line _ _ _ _ _, .rectangle _ _ _ _ _ _ _ => by simp [Geometry2D.beqG]
  | .line _ _ _ _ _, .polygon _ _ _ _ _ => by simp [Geometry2D.beqG]
  | .line _ _ _ _ _, .circle _ _ _ _ _ _ => by simp [Geometry2D.beqG]
  | .line _ _ _ _ _, .ellipse _ _ _ _ _ _ => by simp [Geometry2D.beqG]
  | .line _ _ _ _ _, .image _ _ _ _ _ _ => by simp [Geometry2D.beqG]
  | .line _ _ _ _ _, .group _ => by simp [Geometry2D.beqG]
  | .polyline _ _ _ _ _, .point _ _ _ => by simp [Geometry2D.beqG]
  | .polyline _ _ _ _ _, .line _ _ _ _ _ => by simp [Geometry2D.beqG]
  | .polyline _ _ _ _ _, .polyline _ _ _ _ _ => by simp [Geometry2D.beqG, and_assoc]
  | .polyline _ _ _ _ _, .triangle _ _ _ _ _ => by simp [Geometry2D.beqG]
  | .polyline _ _ _ _ _, .square _ _ _ _ _ _ _ => by simp [Geometry2D.beqG]
  | .polyline _ _ _ _ _, .rectangle _ _ _ _ _ _ _ => by simp [Geometry2D.beqG]
  | .polyline _ _ _ _ _, .polygon _ _ _ _ _ => by simp [Geometry2D.beqG]
  | .polyline _ _ _ _ _, .circle _ _ _ _ _ _ => by simp [Geometry2D.beqG]
  | .polyline _ _ _ _ _, .ellipse _ _ _ _ _ _ => by simp [Geometry2D.beqG]
  | .polyline _ _ _ _ _, .image _ _ _ _ _ _ => by simp [Geometry2D.beqG]
  | .polyline _ _ _ _ _, .group _ => by simp [Geometry2D.beqG]
  | .triangle _ _ _ _ _, .point _ _ _ => by simp [Geometry2D.beqG]
  | .triangle _ _ _ _ _, .line _ _ _ _ _ => by simp [Geometry2D.beqG]
  | .triangle _ _ _ _ _, .polyline _ _ _ _ _ => by simp [Geometry2D.beqG]
  | .triangle _ _ _ _ _, .triangle _ _ _ _ _ => by simp [Geometry2D.beqG, and_assoc]
  | .triangle _ _ _ _ _, .square _ _ _ _ _ _ _ => by simp [Geometry2D.beqG]
  | .triangle _ _ _ _ _, .rectangle _ _ _ _ _ _ _ => by simp [Geometry2D.beqG]
  | .triangle _ _ _ _ _, .polygon _ _ _ _ _ => by simp [Geometry2D.beqG]
  | .triangle _ _ _ _ _, .circle _ _ _ _ _ _ => by simp [Geometry2D.beqG]
  | .triangle _ _ _ _ _, .ellipse _ _ _ _ _ _ => by simp [Geometry2D.beqG]
  | .triangle _ _ _ _ _, .image _ _ _ _ _ _ => by simp [Geometry2D.beqG]
  | .triangle _ _ _ _ _, .group _ => by simp [Geometry2D.beqG]
  | .square _ _ _ _ _ _ _, .point _ _ _ => by simp [Geometry2D.beqG]
  | .square _ _ _ _ _ _ _, .line _ _ _ _ _ => by simp [Geometry2D.beqG]
  | .square _ _ _ _ _ _ _, .polyline _ _ _ _ _ => by simp [Geometry2D.beqG]
  | .square _ _ _ _ _ _ _, .triangle _ _ _ _ _ => by simp [Geometry2D.beqG]
  | .square _ _ _ _ _ _ _, .square _ _ _ _ _ _ _ => by simp [Geometry2D.beqG, and_assoc]
  | .square _ _ _ _ _ _ _, .rectangle _ _ _ _ _ _ _ => by simp [Geometry2D.beqG]
  | .square _ _ _ _ _ _ _, .polygon _ _ _ _ _ => by simp [Geometry2D.beqG]
  | .square _ _ _ _ _ _ _, .circle _ _ _ _ _ _ => by simp [Geometry2D.beqG]
  | .square _ _ _ _ _ _ _, .ellipse _ _ _ _ _ _ => by simp [Geometry2D.beqG]
  | .square _ _ _ _ _ _ _, .image _ _ _ _ _ _ => by simp [Geometry2D.beqG]
  | .square _ _ _ _ _ _ _, .group _ => by simp [Geometry2D.beqG]
  | .rectangle _ _ _ _ _ _ _, .point _ _ _ => by simp [Geometry2D.beqG]
  | .rectangle _ _ _ _ _ _ _, .line _ _ _ _ _ => by simp [Geometry2D.beqG]
  | .rectangle _ _ _ _ _ _ _, .polyline _ _ _ _ _ => by simp [Geometry2D.beqG]
  | .rectangle _ _ _ _ _ _ _, .triangle _ _ _ _ _ => by simp [Geometry2D.beqG]
  | .rectangle _ _ _ _ _ _ _, .square _ _ _ _ _ _ _ => by simp [Geometry2D.beqG]
  | .rectangle _ _ _ _ _ _ _, .rectangle _ _ _ _ _ _ _ => by simp [Geometry2D.beqG, and_assoc]
  | .rectangle _ _ _ _ _ _ _, .polygon _ _ _ _ _ => by simp [Geometry2D.beqG]
  | .rectangle _ _ _ _ _ _ _, .circle _ _ _ _ _ _ => by simp [Geometry2D.beqG]
  | .rectangle _ _ _ _ _ _ _, .ellipse _ _ _ _ _ _ => by simp [Geometry2D.beqG]
  | .rectangle _ _ _ _ _ _ _, .image _ _ _ _ _ _ => by simp [Geometry2D.beqG]
  | .rectangle _ _ _ _ _ _ _, .group _ => by simp [Geometry2D.beqG]
  | .polygon _ _ _ _ _, .point _ _ _ => by simp [Geometry2D.beqG]
  | .polygon _ _ _ _ _, .line _ _ _ _ _ => by simp [Geometry2D.beqG]
  | .polygon _ _ _ _ _, .polyline _ _ _ _ _ => by simp [Geometry2D.beqG]
  | .polygon _ _ _ _ _, .triangle _ _ _ _ _ => by simp [Geometry2D.beqG]
  | .polygon _ _ _ _ _, .square _ _ _ _ _ _ _ => by simp [Geometry2D.beqG]
  | .polygon _ _ _ _ _, .rectangle _ _ _ _ _ _ _ => by simp [Geometry2D.beqG]
  | .polygon _ _ _ _ _, .polygon _ _ _ _ _ => by simp [Geometry2D.beqG, and_assoc]
  | .polygon _ _ _ _ _, .circle _ _ _ _ _ _ => by simp [Geometry2D.beqG]
  | .polygon _ _ _ _ _, .ellipse _ _ _ _ _ _ => by simp [Geometry2D.beqG]
  | .polygon _ _ _ _ _, .image _ _ _ _ _ _ => by simp [Geometry2D.beqG]
  | .polygon _ _ _ _ _, .group _ => by simp [Geometry2D.beqG]
  | .circle _ _ _ _ _ _, .point _ _ _ => by simp [Geometry2D.beqG]
  | .circle _ _ _ _ _ _, .line _ _ _ _ _ => by simp [Geometry2D.beqG]
  | .circle _ _ _ _ _ _, .polyline _ _ _ _ _ => by simp [Geometry2D.beqG]
  | .circle _ _ _ _ _ _, .triangle _ _ _ _ _ => by simp [Geometry2D.beqG]
  | .circle _ _ _ _ _ _, .square _ _ _ _ _ _ _ => by simp [Geometry2D.beqG]
  | .circle _ _ _ _ _ _, .rectangle _ _ _ _ _ _ _ => by simp [Geometry2D.beqG]
  | .circle _ _ _ _ _ _, .polygon _ _ _ _ _ => by simp [Geometry2D.beqG]
  | .circle _ _ _ _ _ _, .circle _ _ _ _ _ _ => by simp [Geometry2D.beqG, and_assoc]
  | .circle _ _ _ _ _ _, .ellipse _ _ _ _ _ _ => by simp [Geometry2D.beqG]
  | .circle _ _ _ _ _ _, .image _ _ _ _ _ _ => by simp [Geometry2D.beqG]
  | .circle _ _ _ _ _ _, .group _ => by simp [Geometry2D.beqG]
  | .ellipse _ _ _ _ _ _, .point _ _ _ => by simp [Geometry2D.beqG]
  | .ellipse _ _ _ _ _ _, .line _ _ _ _ _ => by simp [Geometry2D.beqG]
  | .ellipse _ _ _ _ _ _, .polyline _ _ _ _ _ => by simp [Geometry2D.beqG]
  | .ellipse _ _ _ _ _ _, .triangle _ _ _ _ _ => by simp [Geometry2D.beqG]
  | .ellipse _ _ _ _ _ _, .square _ _ _ _ _ _ _ => by simp [Geometry2D.beqG]
  | .ellipse _ _ _ _ _ _, .rectangle _ _ _ _ _ _ _ => by simp [Geometry2D.beqG]
  | .ellipse _ _ _ _ _ _, .polygon _ _ _ _ _ => by simp [Geometry2D.beqG]
  | .ellipse _ _ _ _ _ _, .circle _ _ _ _ _ _ => by simp [Geometry2D.beqG]
  | .ellipse _ _ _ _ _ _, .ellipse _ _ _ _ _ _ => by simp [Geometry2D.beqG, and_assoc]
  | .ellipse _ _ _ _ _ _, .image _ _ _ _ _ _ => by simp [Geometry2D.beqG]
  | .ellipse _ _ _ _ _ _, .group _ => by simp [Geometry2D.beqG]
  | .image _ _ _ _ _ _, .point _ _ _ => by simp [Geometry2D.beqG]
  | .image _ _ _ _ _ _, .line _ _ _ _ _ => by simp [Geometry2D.beqG]
  | .image _ _ _ _ _ _, .polyline _ _ _ _ _ => by simp [Geometry2D.beqG]
  | .image _ _ _ _ _ _, .triangle _ _ _ _ _ => by simp [Geometry2D.beqG]
  | .image _ _ _ _ _ _, .square _ _ _ _ _ _ _ => by simp [Geometry2D.beqG]
  | .image _ _ _ _ _ _, .rectangle _ _ _ _ _ _ _ => by simp [Geometry2D.beqG]
  | .image _ _ _ _ _ _, .polygon _ _ _ _ _ => by simp [Geometry2D.beqG]
  | .image _ _ _ _ _ _, .circle _ _ _ _ _ _ => by simp [Geometry2D.beqG]
  | .image _ _ _ _ _ _, .ellipse _ _ _ _ _ _ => by simp [Geometry2D.beqG]
  | .image _ _ _ _ _ _, .image _ _ _ _ _ _ => by simp [Geometry2D.beqG, and_assoc]
  | .image _ _ _ _ _ _, .group _ => by simp [Geometry2D.beqG]
  | .group _, .point _ _ _ => by simp [Geometry2D.beqG]
  | .group _, .line _ _ _ _ _ => by simp [Geometry2D.beqG]
  | .group _, .polyline _ _ _ _ _ => by simp [Geometry2D.beqG]
  | .group _, .triangle _ _ _ _ _ => by simp [Geometry2D.beqG]
  | .group _, .square _ _ _ _ _ _ _ => by simp [Geometry2D.beqG]
  | .group _, .rectangle _ _ _ _ _ _ _ => by simp [Geometry2D.beqG]
  | .group _, .polygon _ _ _ _ _ => by simp [Geometry2D.beqG]
  | .group _, .circle _ _ _ _ _ _ => by simp [Geometry2D.beqG]
  | .group _, .ellipse _ _ _ _ _ _ => by simp [Geometry2D.beqG]
  | .group _, .image _ _ _ _ _ _ => by simp [Geometry2D.beqG]
  | .group l, .group k => by simp [Geometry2D.beqG, Geometry2D.beqGroup_iff l k]

def Geometry2D.beqGroup_iff :
    ∀ a b : List Geometry2D, Geometry2D.beqGroup a b = true ↔ a = b
  | [], [] => by simp [Geometry2D.beqGroup]
  | [], _ :: _ => by simp [Geometry2D.beqGroup]
  | _ :: _, [] => by simp [Geometry2D.beqGroup]
  | x :: xs, y :: ys => by
    simp [Geometry2D.beqGroup, Geometry2D.beqG_iff x y, Geometry2D.beqGroup_iff xs ys]

end

instance : DecidableEq Geometry2D := fun a b =>
  decidable_of_iff (Geometry2D.beqG a b = true) (Geometry2D.beqG_iff a b)

/-- `TextureBuffer` (src/lib.rs lines 145-221): the usage-counted texture
cache.  `τ` stands for the backend texture type `G2dTexture`; the
`HashMap<TextureSource, (usize, G2dTexture)>` is modelled as an association
list with unique keys. -/
structure TextureBuffer (τ : Type) where
  starting_uses : ℕ
  buffered_textures : List (TextureSource × ℕ × τ)

/-- `TextureBuffer::new(starting_uses)`: clamps the lease length to at least 1
and starts empty. -/
def TextureBuffer.new (τ : Type) (starting_uses : ℕ) : TextureBuffer τ :=
  ⟨max starting_uses 1, []⟩

/-- Specification-level accessor: the (counter, texture) entry stored for a
source, if any (first matching key, as in the key-unique `HashMap`). -/
def TextureBuffer.lookup {τ : Type} (tb : TextureBuffer τ) (src : TextureSource) :
    Option (ℕ × τ) :=
  (tb.buffered_textures.find? (fun e => e.1 == src)).map (fun e => e.2)

/-- `self.buffered_textures.contains_key(&texture_source)`. -/
def TextureBuffer.contains_key {τ : Type} (tb : TextureBuffer τ)
    (src : TextureSource) : Bool :=
  (tb.buffered_textures.find? (fun e => e.1 == src)).isSome

/-- `TextureBuffer::get`: the texture stored for a source, dropping the
counter. -/
def TextureBuffer.get {τ : Type} (tb : TextureBuffer τ) (src : TextureSource) :
    Option τ :=
  (tb.lookup src).map (fun e => e.2)

/-- `TextureBuffer::load_or_mark_use(texture_source, window)`: if the source is
buffered its counter is incremented, otherwise the texture is materialized and
inserted with `starting_uses` uses.  The `loader` argument stands for the
external `Texture::from_path` / `Texture::from_image` machinery driven by the
`window` parameter (whose failure panics in the code and is out of scope
here). -/
def TextureBuffer.load_or_mark_use {τ : Type} (tb : TextureBuffer τ)
    (loader : TextureSource → τ) (texture_source : TextureSource) :
    TextureBuffer τ :=
  if tb.contains_key texture_source then
    { tb with
      buffered_textures := tb.buffered_textures.map (fun e =>
        if e.1 == texture_source then (e.1, e.2.1 + 1, e.2.2) else e) }
  else
    { tb with
      buffered_textures :=
        tb.buffered_textures ++ [(texture_source, tb.starting_uses, loader texture_source)] }

/-- `TextureBuffer::decrease_and_drop`: decrement every positive counter by
one, then remove every entry whose counter is zero (the code collects the keys
of the zero entries and removes them one by one). -/
def TextureBuffer.decrease_and_drop {τ : Type} (tb : TextureBuffer τ) :
    TextureBuffer τ :=
  let decremented := tb.buffered_textures.map (fun e =>
    (e.1, (if 0 < e.2.1 then e.2.1 - 1 else e.2.1), e.2.2))
  let m := (decremented.filter (fun e => e.2.1 == 0)).map (fun e => e.1)
  { tb with buffered_textures := decremented.filter (fun e => !(m.contains e.1)) }

/-- One render frame of `thread_function` as seen by a single texture source
that the current scene references: the mark (`load_or_mark_use` via
`update_texture_buffer`) followed by the end-of-frame `decrease_and_drop`. -/
def TextureBuffer.mark_then_decay {τ : Type} (loader : TextureSource → τ)
    (src : TextureSource) (tb : TextureBuffer τ) : TextureBuffer τ :=
  (tb.load_or_mark_use loader src).decrease_and_drop

/-- The scene mailbox: `latest_data : Arc<Mutex<Option<…>>>`.  A publish is the
assignment `(*locked_latest_data) = Some(tuple)` in `render_two_dimensional`;
modelled on the slot contents (the lock only serializes access). -/
def Mailbox.publish {α : Type} (_slot : Option α) (value : α) : Option α :=
  some value

/-- A take is `latest_data.lock().take()` in `thread_function`: it returns the
current slot value and leaves the slot empty. -/
def Mailbox.take {α : Type} (slot : Option α) : Option α × Option α :=
  (slot, none)

/-- `PistonVisualiserError`. -/
inductive PistonVisualiserError where
  | CloseCouldNotJoinRenderThread (message : String)
deriving DecidableEq

/-- `FurtherPistonVisualiserError<DrawableEnvironmentError>`. -/
inductive FurtherPistonVisualiserError (ε : Type) where
  | RenderingEnvironmentError (error : ε)
  | LockingFailedInternally (message : String)

/-- The tuple type `PistonVisualiserSyncedData`. -/
abbrev PistonVisualiserSyncedData :=
  List Geometry2D × Option (Viewport2D × Viewport2DModification) × Option Color

/-- The producer-side handle state of `PistonVisualiser`.  `join_handle` keeps
the outcome that joining the render thread would report (`none` once the
handle has been consumed by `close`); `closed` is the weak observation of the
thread's closed flag (`none` when the thread state is gone). -/
structure PistonVisualiser where
  join_handle : Option (Except String Unit)
  close_requested : Bool
  closed : Option Bool
  last_geometries_2d : List Geometry2D
  last_preferred_view : Option (Viewport2D × Viewport2DModification)
  last_preferred_background_color : Option Color
  latest_data : Option PistonVisualiserSyncedData

/-- The handle state right after `PistonVisualiser::run` (window title,
dimension and frame cap only parametrize the spawned thread): empty dedup
state, mailbox primed with the empty tuple, thread joinable. -/
def PistonVisualiser.run (join_outcome : Except String Unit) : PistonVisualiser :=
  { join_handle := some join_outcome
    close_requested := false
    closed := some false
    last_geometries_2d := []
    last_preferred_view := none
    last_preferred_background_color := none
    latest_data := some ([], none, none) }

/-- `Visualiser::close` (src/lib.rs lines 1128-1138): take the join handle if
still present, set the close-request flag, join (its outcome is the stored
`Except`), and map a join failure onto `CloseCouldNotJoinRenderThread`;
with the join handle already taken, do nothing and report success. -/
def PistonVisualiser.close (s : PistonVisualiser) :
    PistonVisualiser × Except PistonVisualiserError Unit :=
  match s.join_handle with
  | some join_result =>
    ({ s with join_handle := none, close_requested := true },
     match join_result with
     | .ok _ => .ok ()
     | .error e => .error (.CloseCouldNotJoinRenderThread e))
  | none => (s, .ok ())

/-- `Visualiser::is_open`. -/
def PistonVisualiser.is_open (s : PistonVisualiser) : Bool :=
  match s.closed with
  | some is_closed => !is_closed
  | none => false

/-- `Viewport2D::with(Position2D::zero(), Size2D::with(2f64, 2f64))`, the
canonical 2×2 window viewport. -/
def window_viewport : Viewport2D :=
  ⟨Position2D.zero, ⟨2, 2⟩⟩

/-- The per-frame answers of the `TwoDimensionalDrawableEnvironment`
collaborator (scene source): its `preferred_view()`, `draw_two_dimensional()`
and `preferred_background_color()` results. -/
structure DrawableEnv (ε : Type) where
  preferred_view : Option (Viewport2D × Viewport2DModification)
  draw_two_dimensional : Except ε (List Geometry2D)
  preferred_background_color : Option Color

/-- `TwoDimensionalVisualiser::render_two_dimensional` (src/lib.rs lines
1148-1187).  `gtf` stands for the external
`geometry.transform(&pref_viewport, &window_viewport)` of the base crate.  The
returned `Bool` records whether the mailbox slot was written during the call.
The mailbox lock is modelled as always acquired (lock poisoning is a
cross-thread failure out of scope of this embedding). -/
def PistonVisualiser.render_two_dimensional {ε : Type}
    (gtf : Geometry2D → Viewport2D → Viewport2D → Geometry2D)
    (env : DrawableEnv ε) (s : PistonVisualiser) :
    PistonVisualiser × Bool × Except (FurtherPistonVisualiserError ε) Unit :=
  let new_preferred_view := env.preferred_view
  let pref_viewport := match new_preferred_view with
    | some (pref_viewport, _) => pref_viewport
    | none => Viewport2D.mk Position2D.zero (Size2D.mk 2 2)
  match env.draw_two_dimensional with
  | .error e => (s, false, .error (.RenderingEnvironmentError e))
  | .ok drawn =>
    let new_geometries_2d := drawn.map (fun g => gtf g pref_viewport window_viewport)
    let new_background_color := env.preferred_background_color
    if new_geometries_2d ≠ s.last_geometries_2d ∨
        new_preferred_view ≠ s.last_preferred_view ∨
        new_background_color ≠ s.last_preferred_background_color then
      ({ s with
          latest_data := Mailbox.publish s.latest_data
            (new_geometries_2d, new_preferred_view, new_background_color)
          last_geometries_2d := new_geometries_2d
          last_preferred_view := new_preferred_view
          last_preferred_background_color := new_background_color },
       true, .ok ())
    else
      (s, false, .ok ())

/-- Specification-level abbreviation: the candidate tuple a successful
`render_two_dimensional` call compares against the handle's dedup state (the
transformed geometry list, the preferred view and the background color). -/
def new_synced_data {ε : Type} (gtf : Geometry2D → Viewport2D → Viewport2D → Geometry2D)
    (env : DrawableEnv ε) (drawn : List Geometry2D) : PistonVisualiserSyncedData :=
  (drawn.map (fun g => gtf g
      (match env.preferred_view with
        | some (pref_viewport, _) => pref_viewport
        | none => Viewport2D.mk Position2D.zero (Size2D.mk 2 2))
      window_viewport),
   env.preferred_view, env.preferred_background_color)

/-- The piston `DrawState` as used by `src/lib.rs`: either the default state or
the default state with a scissor rectangle `[x, y, w, h]` in `u32`
coordinates. -/
inductive DrawState where
  | default
  | scissor (x y w h : ℕ)
deriving DecidableEq

/-- The `as u32` cast applied by Rust to a nonnegative-or-not `f64`: saturating
truncation towards zero. -/
def toU32 (q : ℚ) : ℕ :=
  if q < 0 then 0 else min (Int.toNat ⌊q⌋) (2 ^ 32 - 1)

/-- The piston `Viewport` of a render context: its `rect` (`[i32; 4]`, read
through `as f64`) and its `draw_size` (`[u32; 2]`, read through `as f64`). -/
structure CtxViewport where
  rect : ℚ × ℚ × ℚ × ℚ
  draw_size : ℚ × ℚ

/-- The piston render `Context`: the optional viewport and the context
transform that the point variant draws with. -/
structure Context where
  viewport : Option CtxViewport
  transform : M32

/-- One drawing call issued to the piston backend.  `τ` is the backend texture
type.  Each constructor records the arguments of the corresponding primitive:
`piston_window::clear`, `Ellipse::draw` (with optional border),
`Line::draw_from_to`, `Polygon::draw`, `Rectangle::draw` and `Image::draw`. -/
inductive DrawCmd (τ : Type) where
  | clear (color : ℚ × ℚ × ℚ × ℚ)
  | ellipseRect (color : ℚ × ℚ × ℚ × ℚ) (border : Option ((ℚ × ℚ × ℚ × ℚ) × ℚ))
      (rect : ℚ × ℚ × ℚ × ℚ) (draw_state : DrawState) (transform : M32)
  | lineFromTo (color : ℚ × ℚ × ℚ × ℚ) (width : ℚ) (shape : LineShape)
      (fromP : ℚ × ℚ) (toP : ℚ × ℚ) (draw_state : DrawState) (transform : M32)
  | polygonFill (color : ℚ × ℚ × ℚ × ℚ) (points : List (ℚ × ℚ))
      (draw_state : DrawState) (transform : M32)
  | rectShape (fill_color : ℚ × ℚ × ℚ × ℚ) (border : (ℚ × ℚ × ℚ × ℚ) × ℚ)
      (corner : CornerShape) (rect : ℚ × ℚ × ℚ × ℚ) (draw_state : DrawState)
      (transform : M32)
  | imageRect (rect : ℚ × ℚ × ℚ × ℚ) (color : Option (ℚ × ℚ × ℚ × ℚ))
      (src_rect : Option (ℚ × ℚ × ℚ × ℚ)) (texture : τ) (draw_state : DrawState)
      (transform : M32)

/-- The draw state a command was issued with (`none` for `clear`, which takes
no draw state). -/
def DrawCmd.state? {τ : Type} : DrawCmd τ → Option DrawState
  | .clear _ => none
  | .ellipseRect _ _ _ ds _ => some ds
  | .lineFromTo _ _ _ _ _ ds _ => some ds
  | .polygonFill _ _ ds _ => some ds
  | .rectShape _ _ _ _ ds _ => some ds
  | .imageRect _ _ _ _ ds _ => some ds

/-- The head of `PistonVisualiser::render` (src/lib.rs lines 710-766): from the
preferred view and the context viewport, the draw state (possibly carrying a
scissor) and the transform appended to every top-level geometry node.  `none`
models the `context.viewport.unwrap()` panic when the context has no viewport
in the aspect-ratio-preserving branches. -/
def compute_draw_state_and_transform (context : Context)
    (preferred_view : Option (Viewport2D × Viewport2DModification)) :
    Option (DrawState × Transformation2D) :=
  match preferred_view with
  | some (viewport, viewport_mod) =>
    match viewport_mod with
    | .looseAspect => some (DrawState.default, Transformation2D.identity)
    | .keepAspect | .keepAspectAndScissorRemains =>
      match context.viewport with
      | none => none
      | some ctx_vp =>
        let rect2 := ctx_vp.rect.2.2.1
        let rect3 := ctx_vp.rect.2.2.2
        let h0 := rect3
        let w0 := viewport.size.width / viewport.size.height * h0
        let wh := if w0 > rect2 then
            (rect2, viewport.size.height / viewport.size.width * rect2)
          else (w0, h0)
        let t := Transformation2D.composition "KeepAspectRatio"
          [ Transformation2D.translation
              (Position2D.vector_to window_viewport.center Position2D.zero),
            Transformation2D.scale (wh.1 / rect2) (wh.2 / rect3),
            Transformation2D.translation
              (Position2D.vector_to Position2D.zero window_viewport.center) ]
        let draw_state :=
          if viewport_mod = Viewport2DModification.keepAspectAndScissorRemains then
            DrawState.scissor (toU32 ((rect2 - wh.1) / 2)) (toU32 ((rect3 - wh.2) / 2))
              (toU32 wh.1) (toU32 wh.2)
          else DrawState.default
        some (draw_state, t)
  | none => some (DrawState.default, Transformation2D.identity)

/-- `PistonVisualiser::draw_polygon_border` (src/lib.rs lines 1088-1113): a
closed loop of round-capped stroked segments from `points[i]` to
`points[(i+1) % len]`, here written as a zip with the rotated point list. -/
def draw_polygon_border {τ : Type} (points : List (ℚ × ℚ))
    (border_color : ℚ × ℚ × ℚ × ℚ) (border_width : ℚ) (draw_state : DrawState)
    (transform : M32) : List (DrawCmd τ) :=
  (points.zip (points.rotate 1)).map (fun pq =>
    DrawCmd.lineFromTo border_color border_width LineShape.round pq.1 pq.2
      draw_state transform)

/-- The per-index loop of the polyline variant: one stroked segment from
`points[index]` to `points[index + 1]` for every `index < points.len() - 1`. -/
def polyline_segments {τ : Type} (line_color : ℚ × ℚ × ℚ × ℚ) (line_width : ℚ)
    (line_shape : LineShape) (draw_state : DrawState) (transform : M32) :
    List Position2D → List (DrawCmd τ)
  | p0 :: p1 :: rest =>
    DrawCmd.lineFromTo line_color line_width line_shape (p0.x, p0.y) (p1.x, p1.y)
        draw_state transform ::
      polyline_segments line_color line_width line_shape draw_state transform
        (p1 :: rest)
  | _ => []

mutual

/-- `PistonVisualiser::render_geometry_2d` (src/lib.rs lines 780-1086) as the
list of drawing commands it issues; `none` models a panic: the point variant
unwraps the context viewport, the line variant indexes `points[0]` and
`points[1]` unconditionally, the polyline variant underflows
`points.len() - 1` on an empty list (so its first loop iteration indexes an
empty slice), and the image variant unwraps the texture-cache lookup.  The
point variant passes a fresh `DrawState::default()` instead of the active
`draw_state` (the code carries the commented-out `// draw_state` argument). -/
def render_geometry_2d {τ : Type} (context : Context) (draw_state : DrawState)
    (geometry_2d : Geometry2D) (texture_buffer : TextureBuffer τ) :
    Option (List (DrawCmd τ)) :=
  match geometry_2d with
  | .point position color transformations =>
    match context.viewport with
    | none => none
    | some ctx_vp =>
      let transformed_position := position.transformBy transformations
      some [DrawCmd.ellipseRect color.float_array none
        ((transformed_position.x + 1) / 2 * ctx_vp.draw_size.1,
         (transformed_position.y + 1) / 2 * ctx_vp.draw_size.2, 1, 1)
        DrawState.default context.transform]
  | .line points line_color line_width line_shape transformations =>
    match points with
    | p0 :: p1 :: _ =>
      some [DrawCmd.lineFromTo line_color.float_array line_width line_shape
        (p0.x, p0.y) (p1.x, p1.y) draw_state
        (matrix_3x3_as_matrix_3x2 (Transformation2D.matrixChain transformations))]
    | _ => none
  | .polyline points line_color line_width line_shape transformations =>
    match points with
    | [] => none
    | _ :: _ =>
      some (polyline_segments line_color.float_array line_width line_shape
        draw_state
        (matrix_3x3_as_matrix_3x2 (Transformation2D.matrixChain transformations))
        points)
  | .triangle points fill_color border_color border_width transformations =>
    let m := matrix_3x3_as_matrix_3x2 (Transformation2D.matrixChain transformations)
    let polygon := [(points.1.x, points.1.y), (points.2.1.x, points.2.1.y),
      (points.2.2.x, points.2.2.y)]
    some (DrawCmd.polygonFill fill_color.float_array polygon draw_state m ::
      draw_polygon_border polygon border_color.float_array border_width draw_state m)
  | .square center_position edge_length fill_color border_color border_width
      corner_shape transformations =>
    some [DrawCmd.rectShape fill_color.float_array
      (border_color.float_array, border_width) corner_shape
      (center_position.x - edge_length / 2, center_position.y - edge_length / 2,
       edge_length, edge_length) draw_state
      (matrix_3x3_as_matrix_3x2 (Transformation2D.matrixChain transformations))]
  | .rectangle center_position size fill_color border_color border_width
      corner_shape transformations =>
    some [DrawCmd.rectShape fill_color.float_array
      (border_color.float_array, border_width) corner_shape
      (center_position.x - size.width / 2, center_position.y - size.height / 2,
       size.width, size.height) draw_state
      (matrix_3x3_as_matrix_3x2 (Transformation2D.matrixChain transformations))]
  | .polygon points fill_color border_color border_width transformations =>
    let m := matrix_3x3_as_matrix_3x2 (Transformation2D.matrixChain transformations)
    let polygon := points.map (fun position => (position.x, position.y))
    some (DrawCmd.polygonFill fill_color.float_array polygon draw_state m ::
      draw_polygon_border polygon border_color.float_array border_width draw_state m)
  | .circle center_position radius fill_color border_color border_width
      transformations =>
    some [DrawCmd.ellipseRect fill_color.float_array
      (some (border_color.float_array, border_width))
      (center_position.x - radius, center_position.y - radius,
       2 * radius, 2 * radius) draw_state
      (matrix_3x3_as_matrix_3x2 (Transformation2D.matrixChain transformations))]
  | .ellipse center_position size fill_color border_color border_width
      transformations =>
    some [DrawCmd.ellipseRect fill_color.float_array
      (some (border_color.float_array, border_width))
      (center_position.x - size.width, center_position.y - size.height,
       size.width, size.height) draw_state
      (matrix_3x3_as_matrix_3x2 (Transformation2D.matrixChain transformations))]
  | .image center_position size texture_source source_rectangle fill_color
      transformations =>
    match texture_buffer.get texture_source with
    | none => none
    | some texture =>
      some [DrawCmd.imageRect
        (center_position.x - size.width / 2, center_position.y - size.height / 2,
         size.width, size.height)
        (fill_color.map Color.float_array)
        (source_rectangle.map (fun sr =>
          (sr.1.x - sr.2.width / 2, sr.1.y - sr.2.height / 2,
           sr.2.width, sr.2.height)))
        texture draw_state
        (matrix_3x3_as_matrix_3x2 (Transformation2D.matrixChain transformations))]
  | .group geometries =>
    render_geometry_2d_list context draw_state geometries texture_buffer

/-- The group variant's loop: render each child with the same draw state and
context, concatenating the issued commands (a child's panic propagates). -/
def render_geometry_2d_list {τ : Type} (context : Context) (draw_state : DrawState)
    (geometries : List Geometry2D) (texture_buffer : TextureBuffer τ) :
    Option (List (DrawCmd τ)) :=
  match geometries with
  | [] => some []
  | g :: gs =>
    match render_geometry_2d context draw_state g texture_buffer,
        render_geometry_2d_list context draw_state gs texture_buffer with
    | some cmds, some rest => some (cmds ++ rest)
    | _, _ => none

end

mutual

/-- `geometry_2d.clone().append_transformation(transform)` of the external base
crate: the transform is appended to the node's transformation chain; a group
distributes it over its children. -/
def Geometry2D.append_transformation : Geometry2D → Transformation2D → Geometry2D
  | .point a b ts, t => .point a b (ts ++ [t])
  | .line a b c d ts, t => .line a b c d (ts ++ [t])
  | .polyline a b c d ts, t => .polyline a b c d (ts ++ [t])
  | .triangle a b c d ts, t => .triangle a b c d (ts ++ [t])
  | .square a b c d e f ts, t => .square a b c d e f (ts ++ [t])
  | .rectangle a b c d e f ts, t => .rectangle a b c d e f (ts ++ [t])
  | .polygon a b c d ts, t => .polygon a b c d (ts ++ [t])
  | .circle a b c d e ts, t => .circle a b c d e (ts ++ [t])
  | .ellipse a b c d e ts, t => .ellipse a b c d e (ts ++ [t])
  | .image a b c d e ts, t => .image a b c d e (ts ++ [t])
  | .group gs, t => .group (Geometry2D.append_transformation_list gs t)

/-- Appending a transformation to every node of a geometry list. -/
def Geometry2D.append_transformation_list :
    List Geometry2D → Transformation2D → List Geometry2D
  | [], _ => []
  | g :: gs, t =>
    Geometry2D.append_transformation g t ::
      Geometry2D.append_transformation_list gs t

end

/-- `PistonVisualiser::render` (src/lib.rs lines 697-778): optional clear to
the background color, then every top-level node is rendered with the computed
draw state after the computed transform is appended to its chain. -/
def render {τ : Type} (context : Context) (geometry_2ds : List Geometry2D)
    (preferred_view : Option (Viewport2D × Viewport2DModification))
    (background_color : Option Color) (texture_buffer : TextureBuffer τ) :
    Option (List (DrawCmd τ)) :=
  let cleared : List (DrawCmd τ) := match background_color with
    | some c => [DrawCmd.clear c.float_array]
    | none => []
  match compute_draw_state_and_transform context preferred_view with
  | none => none
  | some (draw_state, transform) =>
    match render_geometry_2d_list context draw_state
        (Geometry2D.append_transformation_list geometry_2ds transform)
        texture_buffer with
    | none => none
    | some cmds => some (cleared ++ cmds)

/-! ## Texture cache: claims C1 and C2 -/

theorem find?_map_increment {τ : Type} (src : TextureSource)
    (l : List (TextureSource × ℕ × τ)) :
    ∀ e : TextureSource × ℕ × τ,
      l.find? (fun x => x.1 == src) = some e →
      (l.map (fun x => if x.1 == src then (x.1, x.2.1 + 1, x.2.2) else x)).find?
          (fun x => x.1 == src) = some (e.1, e.2.1 + 1, e.2.2) := by
  induction l with
  | nil => intro e h; simp at h
  | cons a l ih =>
    intro e h
    by_cases ha : (a.1 == src) = true
    · have hfc : List.find? (fun x : TextureSource × ℕ × τ => x.1 == src) (a :: l)
          = some a := List.find?_cons_of_pos _ ha
      rw [hfc] at h
      obtain rfl := Option.some.inj h
      simp only [List.map_cons, if_pos ha]
      exact List.find?_cons_of_pos _ ha
    · have hfc : List.find? (fun x : TextureSource × ℕ × τ => x.1 == src) (a :: l)
          = List.find? (fun x => x.1 == src) l := List.find?_cons_of_neg _ ha
      rw [hfc] at h
      simp only [List.map_cons, if_neg ha]
      have hfc2 : List.find? (fun x : TextureSource × ℕ × τ => x.1 == src)
          (a :: l.map (fun x => if x.1 == src then (x.1, x.2.1 + 1, x.2.2) else x))
          = List.find? (fun x => x.1 == src)
            (l.map (fun x => if x.1 == src then (x.1, x.2.1 + 1, x.2.2) else x)) :=
        List.find?_cons_of_neg _ ha
      rw [hfc2]
      exact ih e h

/-- Claim C1, as the code has it (amended): for a source already buffered,
`load_or_mark_use` increments that entry's lease counter by exactly one,
keeping the loaded texture; it does not re-arm the counter to the lease
length.  For a source not yet buffered it invokes the loader and inserts the
entry with `starting_uses` uses, and the render thread's buffer is built with
`TextureBuffer::new(180)`, whose lease length is 180. -/
theorem load_or_mark_use_spec (τ : Type) (tb : TextureBuffer τ)
    (loader : TextureSource → τ) (src : TextureSource) :
    (∀ c t, tb.lookup src = some (c, t) →
      (tb.load_or_mark_use loader src).lookup src = some (c + 1, t)) ∧
    (tb.lookup src = none →
      (tb.load_or_mark_use loader src).lookup src =
        some (tb.starting_uses, loader src)) ∧
    (TextureBuffer.new τ 180).starting_uses = 180 := by
  refine ⟨?_, ?_, Nat.max_eq_left (by norm_num)⟩
  · intro c t h
    have hf : ∃ e, tb.buffered_textures.find? (fun x => x.1 == src) = some e ∧
        e.2 = (c, t) := by
      unfold TextureBuffer.lookup at h
      cases hfind : tb.buffered_textures.find? (fun x => x.1 == src) with
      | none => rw [hfind] at h; simp at h
      | some e =>
        rw [hfind] at h
        simp only [Option.map_some'] at h
        exact ⟨e, rfl, Option.some.inj h⟩
    obtain ⟨e, hfind, he⟩ := hf
    have hcont : tb.contains_key src = true := by
      unfold TextureBuffer.contains_key
      rw [hfind]
      rfl
    unfold TextureBuffer.load_or_mark_use
    rw [if_pos hcont]
    unfold TextureBuffer.lookup
    rw [find?_map_increment src tb.buffered_textures e hfind]
    obtain ⟨k, cnt, tex⟩ := e
    obtain ⟨rfl, rfl⟩ := Prod.mk.injEq .. ▸ he
    rfl
  · intro h
    have hfind : tb.buffered_textures.find? (fun x => x.1 == src) = none := by
      unfold TextureBuffer.lookup at h
      cases hfind : tb.buffered_textures.find? (fun x => x.1 == src) with
      | none => rfl
      | some e => rw [hfind] at h; simp at h
    have hcont : ¬tb.contains_key src = true := by
      unfold TextureBuffer.contains_key
      rw [hfind]
      simp
    unfold TextureBuffer.load_or_mark_use
    rw [if_neg hcont]
    unfold TextureBuffer.lookup
    rw [List.find?_append, hfind]
    simp

/-- Claim C1 counterexample: on a buffer whose lease length is 180 and that
already holds the source with counter 5, `load_or_mark_use` leaves counter 6,
not the default lease length 180. -/
theorem load_or_mark_use_increments_not_rearms :
    ((TextureBuffer.mk 180 [(TextureSource.path "a", 5, ())]).load_or_mark_use
        (fun _ => ()) (TextureSource.path "a")).lookup (TextureSource.path "a")
      = some (6, ()) ∧ (6 : ℕ) ≠ 180 := by
  exact ⟨rfl, by decide⟩

/-- Claim C1 witness. -/
theorem load_or_mark_use_spec_witness :
    ((TextureBuffer.mk 7 [(TextureSource.path "w", 3, ())]).load_or_mark_use
        (fun _ => ()) (TextureSource.path "w")).lookup (TextureSource.path "w")
      = some (4, ()) :=
  (load_or_mark_use_spec Unit (TextureBuffer.mk 7 [(TextureSource.path "w", 3, ())])
    (fun _ => ()) (TextureSource.path "w")).1 3 () rfl

theorem decay_singleton_succ {τ : Type} (u : ℕ) (s : TextureSource) (c : ℕ)
    (t : τ) :
    TextureBuffer.decrease_and_drop ⟨u, [(s, c + 2, t)]⟩ = ⟨u, [(s, c + 1, t)]⟩ := by
  simp [TextureBuffer.decrease_and_drop]

theorem decay_singleton_one {τ : Type} (u : ℕ) (s : TextureSource) (t : τ) :
    TextureBuffer.decrease_and_drop ⟨u, [(s, 1, t)]⟩ = ⟨u, []⟩ := by
  simp [TextureBuffer.decrease_and_drop]

theorem decay_iterate {τ : Type} (u : ℕ) (s : TextureSource) (t : τ) :
    ∀ (k c : ℕ), k ≤ c →
      (fun tb : TextureBuffer τ => tb.decrease_and_drop)^[k] ⟨u, [(s, c + 1, t)]⟩
        = ⟨u, [(s, c - k + 1, t)]⟩ := by
  intro k
  induction k with
  | zero => intro c _; simp
  | succ k ih =>
    intro c hk
    obtain ⟨c', rfl⟩ : ∃ c', c = c' + 1 := ⟨c - 1, by omega⟩
    rw [Function.iterate_succ_apply]
    have step : (⟨u, [(s, c' + 1 + 1, t)]⟩ : TextureBuffer τ).decrease_and_drop
        = ⟨u, [(s, c' + 1, t)]⟩ :=
      decay_singleton_succ u s c' t
    rw [step]
    have hx : c' + 1 - (k + 1) + 1 = c' - k + 1 := by omega
    rw [hx]
    exact ih c' (by omega)

/-- The render thread's texture buffer is created as `TextureBuffer::new(180)`
with every source loading through the window's texture context. -/
theorem texture_cache_lease_behaviour (τ : Type) (loader : TextureSource → τ)
    (src : TextureSource) :
    (∀ n : ℕ,
      ((TextureBuffer.mark_then_decay loader src)^[n + 1]
          (TextureBuffer.new τ 180)).lookup src = some (179, loader src)) ∧
    (∀ k : ℕ, k ≤ 179 →
      ((fun tb : TextureBuffer τ => tb.decrease_and_drop)^[k]
          ((TextureBuffer.new τ 180).load_or_mark_use loader src)).lookup src
        = some (180 - k, loader src)) ∧
    ((fun tb : TextureBuffer τ => tb.decrease_and_drop)^[180]
        ((TextureBuffer.new τ 180).load_or_mark_use loader src)).lookup src
      = none := by
  have hload : (TextureBuffer.new τ 180).load_or_mark_use loader src
      = ⟨180, [(src, 180, loader src)]⟩ := by
    unfold TextureBuffer.new TextureBuffer.load_or_mark_use TextureBuffer.contains_key
    simp
  have hcont : (⟨180, [(src, 179, loader src)]⟩ : TextureBuffer τ).contains_key src
      = true := by
    simp [TextureBuffer.contains_key]
  have hmark : (⟨180, [(src, 179, loader src)]⟩ : TextureBuffer τ).load_or_mark_use
      loader src = ⟨180, [(src, 180, loader src)]⟩ := by
    unfold TextureBuffer.load_or_mark_use
    rw [if_pos hcont]
    simp
  have hfix : TextureBuffer.mark_then_decay loader src
      ⟨180, [(src, 179, loader src)]⟩ = ⟨180, [(src, 179, loader src)]⟩ := by
    unfold TextureBuffer.mark_then_decay
    rw [hmark]
    exact decay_singleton_succ 180 src 178 (loader src)
  have hfirst : TextureBuffer.mark_then_decay loader src (TextureBuffer.new τ 180)
      = ⟨180, [(src, 179, loader src)]⟩ := by
    unfold TextureBuffer.mark_then_decay
    rw [hload]
    exact decay_singleton_succ 180 src 178 (loader src)
  refine ⟨?_, ?_, ?_⟩
  · intro n
    rw [Function.iterate_succ_apply, hfirst, Function.iterate_fixed hfix n]
    simp [TextureBuffer.lookup]
  · intro k hk
    rw [hload, decay_iterate 180 src (loader src) k 179 hk]
    simp [TextureBuffer.lookup]
    omega
  · show ((fun tb : TextureBuffer τ => tb.decrease_and_drop)^[179 + 1] _).lookup src
      = none
    rw [Function.iterate_succ_apply', hload,
      decay_iterate 180 src (loader src) 179 179 (le_refl 179)]
    have hone : (⟨180, [(src, 179 - 179 + 1, loader src)]⟩ : TextureBuffer τ)
        = ⟨180, [(src, 1, loader src)]⟩ := by norm_num
    rw [hone]
    have hlast : (⟨180, [(src, 1, loader src)]⟩ : TextureBuffer τ).decrease_and_drop
        = ⟨180, []⟩ := decay_singleton_one 180 src (loader src)
    rw [hlast]
    simp [TextureBuffer.lookup]

/-! ## Viewport transform: claims C3 and C4 -/

/-- Claim C3, confirmed: stretch-to-fill yields the identity transform with
the default (scissor-free) draw state; the aspect-ratio-preserving policies
compute the candidate width `w = vp.width / vp.height * surface.height`,
switch to `w = surface.width`, `h = vp.height / vp.width * surface.width` when
the candidate exceeds the surface width, and build the transform as
translate-center-to-origin, scale `(w / surface.width, h / surface.height)`,
translate back; the with-clip policy additionally produces the scissor
rectangle of size `(w, h)` centered in the surface (coordinates passed through
the code's `as u32` saturating truncation). -/
theorem compute_view_spec (tr : M32) (cvp : CtxViewport) (vp : Viewport2D)
    (hw : 0 < vp.size.width) (hh : 0 < vp.size.height) :
    (compute_draw_state_and_transform ⟨some cvp, tr⟩
        (some (vp, Viewport2DModification.looseAspect))
      = some (DrawState.default, Transformation2D.identity)) ∧
    (let sw := cvp.rect.2.2.1
     let sh := cvp.rect.2.2.2
     let w0 := vp.size.width / vp.size.height * sh
     let wh := if w0 > sw then (sw, vp.size.height / vp.size.width * sw)
       else (w0, sh)
     let t := Transformation2D.composition "KeepAspectRatio"
       [ Transformation2D.translation
           (Position2D.vector_to window_viewport.center Position2D.zero),
         Transformation2D.scale (wh.1 / sw) (wh.2 / sh),
         Transformation2D.translation
           (Position2D.vector_to Position2D.zero window_viewport.center) ]
     (compute_draw_state_and_transform ⟨some cvp, tr⟩
         (some (vp, Viewport2DModification.keepAspect))
       = some (DrawState.default, t)) ∧
     (compute_draw_state_and_transform ⟨some cvp, tr⟩
         (some (vp, Viewport2DModification.keepAspectAndScissorRemains))
       = some (DrawState.scissor (toU32 ((sw - wh.1) / 2)) (toU32 ((sh - wh.2) / 2))
           (toU32 wh.1) (toU32 wh.2), t))) := by
  exact ⟨rfl, rfl, rfl⟩

/-- Claim C3 witness. -/
theorem compute_view_spec_witness :
    (0 : ℚ) < 2 ∧ (0 : ℚ) < 1 ∧
    compute_draw_state_and_transform
        ⟨some ⟨(0, 0, 100, 80), (100, 80)⟩, ((1, 0, 0), (0, 1, 0))⟩
        (some (⟨Position2D.zero, ⟨2, 1⟩⟩, Viewport2DModification.looseAspect))
      = some (DrawState.default, Transformation2D.identity) :=
  ⟨by norm_num, by norm_num,
    (compute_view_spec ((1, 0, 0), (0, 1, 0)) ⟨(0, 0, 100, 80), (100, 80)⟩
      ⟨Position2D.zero, ⟨2, 1⟩⟩ (by norm_num) (by norm_num)).1⟩

/-- Claim C4 counterexample: for viewport size (4,2) on an 800×800 surface
under preserve-aspect-ratio, the transform's scale factors are (1, 1/2) — not
(0.5, 0.5) as claimed. -/
theorem viewport_4_2_scale_not_half_half :
    compute_draw_state_and_transform
        ⟨some ⟨(0, 0, 800, 800), (800, 800)⟩, ((1, 0, 0), (0, 1, 0))⟩
        (some (⟨Position2D.zero, ⟨4, 2⟩⟩, Viewport2DModification.keepAspect))
      = some (DrawState.default, Transformation2D.composition "KeepAspectRatio"
          [ Transformation2D.translation ⟨0, 0⟩,
            Transformation2D.scale 1 (1 / 2),
            Transformation2D.translation ⟨0, 0⟩ ]) ∧
    (1 : ℚ) ≠ 1 / 2 := by
  constructor
  · simp only [compute_draw_state_and_transform, window_viewport,
      Position2D.vector_to, Position2D.zero]
    norm_num
    intro h
    exact absurd h (by decide)
  · norm_num

/-- Claim C4, amended: for viewport size (4,2) on an 800×800 surface the
fitted rectangle is `(w, h) = (800, 400)`, centered (the scissor variant
clips to `[0, 200, 800, 400]`), and the transform's scale factors are
`(1, 0.5)`: the width already fills the surface, the height is scaled by
one half. -/
theorem viewport_4_2_fitted_rect :
    compute_draw_state_and_transform
        ⟨some ⟨(0, 0, 800, 800), (800, 800)⟩, ((1, 0, 0), (0, 1, 0))⟩
        (some (⟨Position2D.zero, ⟨4, 2⟩⟩,
          Viewport2DModification.keepAspectAndScissorRemains))
      = some (DrawState.scissor 0 200 800 400,
          Transformation2D.composition "KeepAspectRatio"
            [ Transformation2D.translation ⟨0, 0⟩,
              Transformation2D.scale 1 (1 / 2),
              Transformation2D.translation ⟨0, 0⟩ ]) := by
  simp only [compute_draw_state_and_transform, window_viewport,
    Position2D.vector_to, Position2D.zero, toU32]
  norm_num
  decide

/-- Claim C2 witness. -/
theorem texture_cache_lease_behaviour_witness :
    ((fun tb : TextureBuffer Unit => tb.decrease_and_drop)^[5]
        ((TextureBuffer.new Unit 180).load_or_mark_use (fun _ => ())
          (TextureSource.path "img"))).lookup (TextureSource.path "img")
      = some (175, ()) :=
  (texture_cache_lease_behaviour Unit (fun _ => ())
    (TextureSource.path "img")).2.1 5 (by norm_num)

/-! ## Handle, mailbox and error propagation: claims C5 to C8 -/

theorem render_two_dimensional_ok_eq (ε : Type)
    (gtf : Geometry2D → Viewport2D → Viewport2D → Geometry2D)
    (env : DrawableEnv ε) (s : PistonVisualiser) (drawn : List Geometry2D)
    (h : env.draw_two_dimensional = Except.ok drawn) :
    PistonVisualiser.render_two_dimensional gtf env s =
      (if (new_synced_data gtf env drawn).1 ≠ s.last_geometries_2d ∨
          (new_synced_data gtf env drawn).2.1 ≠ s.last_preferred_view ∨
          (new_synced_data gtf env drawn).2.2 ≠ s.last_preferred_background_color then
        ({ s with
            latest_data := some (new_synced_data gtf env drawn)
            last_geometries_2d := (new_synced_data gtf env drawn).1
            last_preferred_view := (new_synced_data gtf env drawn).2.1
            last_preferred_background_color := (new_synced_data gtf env drawn).2.2 },
         true, Except.ok ())
      else (s, false, Except.ok ())) := by
  unfold PistonVisualiser.render_two_dimensional new_synced_data Mailbox.publish
  rw [h]

/-- Claim C5, amended: a second `render_two_dimensional` call over identical
environment output never writes the mailbox slot and leaves the handle state
unchanged, and a call writes the slot exactly when the candidate tuple differs
from the handle's stored last tuple — so two identical calls write the shared
slot at most once (and zero times when the first tuple already matches the
stored one). -/
theorem render_two_dimensional_dedup (ε : Type)
    (gtf : Geometry2D → Viewport2D → Viewport2D → Geometry2D)
    (env : DrawableEnv ε) (s : PistonVisualiser) (drawn : List Geometry2D)
    (h : env.draw_two_dimensional = Except.ok drawn) :
    ((PistonVisualiser.render_two_dimensional gtf env
        (PistonVisualiser.render_two_dimensional gtf env s).1)
      = ((PistonVisualiser.render_two_dimensional gtf env s).1, false, Except.ok ())) ∧
    ((PistonVisualiser.render_two_dimensional gtf env s).2.1 = true ↔
      new_synced_data gtf env drawn ≠
        (s.last_geometries_2d, s.last_preferred_view,
          s.last_preferred_background_color)) := by
  have e1 := render_two_dimensional_ok_eq ε gtf env s drawn h
  by_cases hcond : (new_synced_data gtf env drawn).1 ≠ s.last_geometries_2d ∨
      (new_synced_data gtf env drawn).2.1 ≠ s.last_preferred_view ∨
      (new_synced_data gtf env drawn).2.2 ≠ s.last_preferred_background_color
  · have hfst : PistonVisualiser.render_two_dimensional gtf env s =
        ({ s with
            latest_data := some (new_synced_data gtf env drawn)
            last_geometries_2d := (new_synced_data gtf env drawn).1
            last_preferred_view := (new_synced_data gtf env drawn).2.1
            last_preferred_background_color := (new_synced_data gtf env drawn).2.2 },
         true, Except.ok ()) := by
      rw [e1, if_pos hcond]
    constructor
    · simp only [hfst]
      rw [render_two_dimensional_ok_eq ε gtf env _ drawn h, if_neg (by simp)]
    · simp only [hfst, true_iff]
      intro heq
      have h1 : (new_synced_data gtf env drawn).1 = s.last_geometries_2d := by
        rw [heq]
      have h2 : (new_synced_data gtf env drawn).2.1 = s.last_preferred_view := by
        rw [heq]
      have h3 : (new_synced_data gtf env drawn).2.2 =
          s.last_preferred_background_color := by
        rw [heq]
      rcases hcond with hc | hc | hc
      exacts [hc h1, hc h2, hc h3]
  · have hfst : PistonVisualiser.render_two_dimensional gtf env s =
        (s, false, Except.ok ()) := by
      rw [e1, if_neg hcond]
    constructor
    · simp only [hfst]
    · simp only [hfst, Bool.false_eq_true, false_iff, ne_eq, not_not]
      push_neg at hcond
      obtain ⟨h1, h2, h3⟩ := hcond
      exact Prod.ext h1 (Prod.ext h2 h3)

/-- Claim C5 counterexample: on a freshly opened handle whose stored last
tuple is the empty scene, a scene source producing the empty scene leads to
two `render_two_dimensional` calls with identical output and zero mailbox
writes — not exactly one. -/
theorem render_twice_zero_publishes :
    ((PistonVisualiser.render_two_dimensional (fun g _ _ => g)
        (⟨none, Except.ok [], none⟩ : DrawableEnv Unit)
        (PistonVisualiser.run (Except.ok ()))).2.1 = false) ∧
    ((PistonVisualiser.render_two_dimensional (fun g _ _ => g)
        (⟨none, Except.ok [], none⟩ : DrawableEnv Unit)
        (PistonVisualiser.render_two_dimensional (fun g _ _ => g)
          (⟨none, Except.ok [], none⟩ : DrawableEnv Unit)
          (PistonVisualiser.run (Except.ok ()))).1).2.1 = false) := by
  constructor
  · simp [PistonVisualiser.render_two_dimensional, PistonVisualiser.run]
  · simp [PistonVisualiser.render_two_dimensional, PistonVisualiser.run]

/-- Claim C5 witness. -/
theorem render_two_dimensional_dedup_witness :
    (PistonVisualiser.render_two_dimensional (fun g _ _ => g)
        (⟨none, Except.ok [], none⟩ : DrawableEnv Unit)
        (PistonVisualiser.render_two_dimensional (fun g _ _ => g)
          (⟨none, Except.ok [], none⟩ : DrawableEnv Unit)
          (PistonVisualiser.run (Except.ok ()))).1)
      = ((PistonVisualiser.render_two_dimensional (fun g _ _ => g)
          (⟨none, Except.ok [], none⟩ : DrawableEnv Unit)
          (PistonVisualiser.run (Except.ok ()))).1, false, Except.ok ()) :=
  (render_two_dimensional_dedup Unit (fun g _ _ => g)
    (⟨none, Except.ok [], none⟩ : DrawableEnv Unit)
    (PistonVisualiser.run (Except.ok ())) [] rfl).1

/-- Claim C6, confirmed: a publish overwrites the slot with the whole new
tuple regardless of its prior contents, a take returns the slot's value and
leaves the slot empty, hence two publishes before a take make the take observe
only the second value, and a take on the emptied slot yields empty. -/
theorem mailbox_last_writer_wins (α : Type) (s : Option α) (A B : α) :
    Mailbox.take (Mailbox.publish (Mailbox.publish s A) B) = (some B, none) ∧
    Mailbox.take (none : Option α) = (none, none) ∧
    Mailbox.publish s A = some A :=
  ⟨rfl, rfl, rfl⟩

/-- Claim C7, confirmed: the first `close` on a handle with a live join handle
sets the close-request flag, consumes the join handle (so the join happens at
most once), and returns `CloseCouldNotJoinRenderThread` exactly when the join
fails; any call on a handle whose join handle is already consumed — in
particular the second call — is a no-op returning success. -/
theorem close_joins_at_most_once (s : PistonVisualiser) (jr : Except String Unit)
    (h : s.join_handle = some jr) :
    (s.close.1.close_requested = true) ∧
    (s.close.1.join_handle = none) ∧
    (s.close.2 = match jr with
      | .ok _ => Except.ok ()
      | .error e => Except.error (PistonVisualiserError.CloseCouldNotJoinRenderThread e)) ∧
    (s.close.1.close = (s.close.1, Except.ok ())) ∧
    (∀ s2 : PistonVisualiser, s2.join_handle = none →
      s2.close = (s2, Except.ok ())) := by
  refine ⟨?_, ?_, ?_, ?_, ?_⟩
  · simp [PistonVisualiser.close, h]
  · simp [PistonVisualiser.close, h]
  · cases jr <;> simp [PistonVisualiser.close, h]
  · simp [PistonVisualiser.close, h]
  · intro s2 h2
    simp [PistonVisualiser.close, h2]

/-- Claim C7 witness. -/
theorem close_joins_at_most_once_witness :
    (PistonVisualiser.run (Except.ok ())).close.1.close_requested = true :=
  (close_joins_at_most_once (PistonVisualiser.run (Except.ok ()))
    (Except.ok ()) rfl).1

/-- Claim C8, confirmed: when the scene source's geometry production fails,
`render_two_dimensional` returns the error wrapped as
`RenderingEnvironmentError` and the handle state — dedup fields and mailbox
slot included — is returned unchanged, with no publish for that frame. -/
theorem render_two_dimensional_error (ε : Type)
    (gtf : Geometry2D → Viewport2D → Viewport2D → Geometry2D)
    (env : DrawableEnv ε) (s : PistonVisualiser) (e : ε)
    (h : env.draw_two_dimensional = Except.error e) :
    PistonVisualiser.render_two_dimensional gtf env s =
      (s, false,
        Except.error (FurtherPistonVisualiserError.RenderingEnvironmentError e)) := by
  unfold PistonVisualiser.render_two_dimensional
  rw [h]

/-! ## Scene-graph renderer: claims C9 and C10 -/

theorem polyline_segments_state (τ : Type) (lc : ℚ × ℚ × ℚ × ℚ) (lw : ℚ)
    (lsh : LineShape) (ds : DrawState) (m : M32) :
    ∀ (ps : List Position2D) (c : DrawCmd τ),
      c ∈ polyline_segments lc lw lsh ds m ps → DrawCmd.state? c = some ds := by
  intro ps
  induction ps with
  | nil => intro c hc; simp [polyline_segments] at hc
  | cons p ps ih =>
    cases ps with
    | nil => intro c hc; simp [polyline_segments] at hc
    | cons q rest =>
      intro c hc
      rw [polyline_segments] at hc
      rcases List.mem_cons.mp hc with hc | hc
      · rw [hc]; rfl
      · exact ih c hc

theorem draw_polygon_border_state (τ : Type) (pts : List (ℚ × ℚ))
    (bc : ℚ × ℚ × ℚ × ℚ) (bw : ℚ) (ds : DrawState) (m : M32) (c : DrawCmd τ)
    (hc : c ∈ draw_polygon_border pts bc bw ds m) : DrawCmd.state? c = some ds := by
  simp only [draw_polygon_border, List.mem_map] at hc
  obtain ⟨pq, _, rfl⟩ := hc
  rfl

/-- Claim C9, confirmed: the point variant draws a single filled 1×1 ellipse
(the fixed 1-unit dot) at the chain-transformed position mapped from [-1,1] to
surface pixels by `(c + 1) / 2 * draw_size`, with a fresh default draw state
(so an active scissor clip never applies to it) and the raw context transform;
every other leaf variant issues all of its drawing calls with the active draw
state it was given. -/
theorem point_ignores_draw_state (τ : Type) (cvp : CtxViewport) (tr : M32)
    (ds : DrawState) (tb : TextureBuffer τ) (pos : Position2D) (col : Color)
    (ts : List Transformation2D) (p0 p1 : Position2D) (rest : List Position2D)
    (lc : Color) (lw : ℚ) (lsh : LineShape)
    (tri : Position2D × Position2D × Position2D) (fc bc : Color) (bw : ℚ)
    (cs : CornerShape) (el : ℚ) (sz : Size2D) (r : ℚ) (pts : List Position2D)
    (cp : Position2D) (tsrc : TextureSource)
    (srect : Option (Position2D × Size2D)) (ofc : Option Color) (tex : τ)
    (htex : tb.get tsrc = some tex) :
    (render_geometry_2d ⟨some cvp, tr⟩ ds (.point pos col ts) tb
      = some [DrawCmd.ellipseRect col.float_array none
          (((pos.transformBy ts).x + 1) / 2 * cvp.draw_size.1,
           ((pos.transformBy ts).y + 1) / 2 * cvp.draw_size.2, 1, 1)
          DrawState.default tr]) ∧
    (∀ cmds, render_geometry_2d ⟨some cvp, tr⟩ ds
        (.line (p0 :: p1 :: rest) lc lw lsh ts) tb = some cmds →
      ∀ c ∈ cmds, DrawCmd.state? c = some ds) ∧
    (∀ cmds, render_geometry_2d ⟨some cvp, tr⟩ ds
        (.polyline (p0 :: rest) lc lw lsh ts) tb = some cmds →
      ∀ c ∈ cmds, DrawCmd.state? c = some ds) ∧
    (∀ cmds, render_geometry_2d ⟨some cvp, tr⟩ ds (.triangle tri fc bc bw ts) tb
        = some cmds → ∀ c ∈ cmds, DrawCmd.state? c = some ds) ∧
    (∀ cmds, render_geometry_2d ⟨some cvp, tr⟩ ds (.square cp el fc bc bw cs ts) tb
        = some cmds → ∀ c ∈ cmds, DrawCmd.state? c = some ds) ∧
    (∀ cmds, render_geometry_2d ⟨some cvp, tr⟩ ds
        (.rectangle cp sz fc bc bw cs ts) tb = some cmds →
      ∀ c ∈ cmds, DrawCmd.state? c = some ds) ∧
    (∀ cmds, render_geometry_2d ⟨some cvp, tr⟩ ds (.polygon pts fc bc bw ts) tb
        = some cmds → ∀ c ∈ cmds, DrawCmd.state? c = some ds) ∧
    (∀ cmds, render_geometry_2d ⟨some cvp, tr⟩ ds (.circle cp r fc bc bw ts) tb
        = some cmds → ∀ c ∈ cmds, DrawCmd.state? c = some ds) ∧
    (∀ cmds, render_geometry_2d ⟨some cvp, tr⟩ ds (.ellipse cp sz fc bc bw ts) tb
        = some cmds → ∀ c ∈ cmds, DrawCmd.state? c = some ds) ∧
    (∀ cmds, render_geometry_2d ⟨some cvp, tr⟩ ds
        (.image cp sz tsrc srect ofc ts) tb = some cmds →
      ∀ c ∈ cmds, DrawCmd.state? c = some ds) := by
  refine ⟨?_, ?_, ?_, ?_, ?_, ?_, ?_, ?_, ?_, ?_⟩
  · simp [render_geometry_2d, Position2D.transformBy]
  · intro cmds hc c hmem
    simp only [render_geometry_2d] at hc
    obtain rfl := Option.some.inj hc
    rcases List.mem_singleton.mp hmem with rfl
    rfl
  · intro cmds hc c hmem
    simp only [render_geometry_2d] at hc
    obtain rfl := Option.some.inj hc
    exact polyline_segments_state τ lc.float_array lw lsh ds _ (p0 :: rest) c hmem
  · intro cmds hc c hmem
    simp only [render_geometry_2d] at hc
    obtain rfl := Option.some.inj hc
    rcases List.mem_cons.mp hmem with rfl | hmem
    · rfl
    · exact draw_polygon_border_state τ _ bc.float_array bw ds _ c hmem
  · intro cmds hc c hmem
    simp only [render_geometry_2d] at hc
    obtain rfl := Option.some.inj hc
    rcases List.mem_singleton.mp hmem with rfl
    rfl
  · intro cmds hc c hmem
    simp only [render_geometry_2d] at hc
    obtain rfl := Option.some.inj hc
    rcases List.mem_singleton.mp hmem with rfl
    rfl
  · intro cmds hc c hmem
    simp only [render_geometry_2d] at hc
    obtain rfl := Option.some.inj hc
    rcases List.mem_cons.mp hmem with rfl | hmem
    · rfl
    · exact draw_polygon_border_state τ _ bc.float_array bw ds _ c hmem
  · intro cmds hc c hmem
    simp only [render_geometry_2d] at hc
    obtain rfl := Option.some.inj hc
    rcases List.mem_singleton.mp hmem with rfl
    rfl
  · intro cmds hc c hmem
    simp only [render_geometry_2d] at hc
    obtain rfl := Option.some.inj hc
    rcases List.mem_singleton.mp hmem with rfl
    rfl
  · intro cmds hc c hmem
    simp only [render_geometry_2d, htex] at hc
    obtain rfl := Option.some.inj hc
    rcases List.mem_singleton.mp hmem with rfl
    rfl

/-- Claim C9 witness. -/
theorem point_ignores_draw_state_witness :
    render_geometry_2d ⟨some ⟨(0, 0, 10, 10), (10, 10)⟩, ((1, 0, 0), (0, 1, 0))⟩
        (DrawState.scissor 0 0 1 1)
        (.point ⟨0, 0⟩ ⟨1, 1, 1, 1⟩ []) (TextureBuffer.mk 1 [(TextureSource.path "t", 1, ())])
      = some [DrawCmd.ellipseRect (Color.float_array ⟨1, 1, 1, 1⟩) none
          (((Position2D.transformBy ⟨0, 0⟩ []).x + 1) / 2 * 10,
           ((Position2D.transformBy ⟨0, 0⟩ []).y + 1) / 2 * 10, 1, 1)
          DrawState.default ((1, 0, 0), (0, 1, 0))] :=
  (point_ignores_draw_state Unit ⟨(0, 0, 10, 10), (10, 10)⟩ ((1, 0, 0), (0, 1, 0))
    (DrawState.scissor 0 0 1 1) (TextureBuffer.mk 1 [(TextureSource.path "t", 1, ())])
    ⟨0, 0⟩ ⟨1, 1, 1, 1⟩ [] ⟨0, 0⟩ ⟨1, 1⟩ [] ⟨1, 1, 1, 1⟩ 1 LineShape.round
    (⟨0, 0⟩, ⟨1, 0⟩, ⟨0, 1⟩) ⟨1, 1, 1, 1⟩ ⟨1, 1, 1, 1⟩ 1 CornerShape.square 1
    ⟨1, 1⟩ 1 [] ⟨0, 0⟩ (TextureSource.path "t") none none () rfl).1

/-- Claim C10, confirmed: rendering a polyline with an empty point list or a
line with fewer than two points is partial — the embedded renderer yields no
command list for these inputs, mirroring the `points.len() - 1` underflow and
the unconditional `points[0]` / `points[1]` indexing panics. -/
theorem render_degenerate_points_panics (τ : Type) (ctx : Context)
    (ds : DrawState) (tb : TextureBuffer τ) (lc : Color) (lw : ℚ)
    (lsh : LineShape) (ts : List Transformation2D) (p : Position2D) :
    render_geometry_2d ctx ds (.polyline [] lc lw lsh ts) tb = none ∧
    render_geometry_2d ctx ds (.line [] lc lw lsh ts) tb = none ∧
    render_geometry_2d ctx ds (.line [p] lc lw lsh ts) tb = none := by
  refine ⟨?_, ?_, ?_⟩ <;> simp [render_geometry_2d]

/-- Claim C8 witness. -/
theorem render_two_dimensional_error_witness :
    PistonVisualiser.render_two_dimensional (fun g _ _ => g)
        (⟨none, Except.error 7, none⟩ : DrawableEnv ℕ)
        (PistonVisualiser.run (Except.ok ()))
      = (PistonVisualiser.run (Except.ok ()), false,
          Except.error (FurtherPistonVisualiserError.RenderingEnvironmentError 7)) :=
  render_two_dimensional_error ℕ (fun g _ _ => g)
    (⟨none, Except.error 7, none⟩ : DrawableEnv ℕ)
    (PistonVisualiser.run (Except.ok ())) 7 rfl

end Gymnarium
